import Mathlib

/-!
Verification of the task-lifecycle and notification-scheduling core of the
rpz-task-bot repository (src/bot.py).  The Python source is shallowly embedded:
strings are Lean strings, the tabular store is a list of 15-column rows, the
in-memory registries are association lists, wall-clock time is integer seconds,
and the fallible external calls (chat transport, store append) are modelled by
explicit success flags mirroring the try/except structure of the source.
-/

/-! ## Python string primitives used by the source -/

/-- Whitespace characters removed by the Python str.strip method
(the ASCII subset, which is all the bot's data ever contains). -/
def isPyWs (c : Char) : Bool :=
  c == ' ' || c == '\t' || c == '\n' || c == '\r' || c == '\x0b' || c == '\x0c'

/-- Strip-from-both-ends on character lists, mirroring Python str.strip(). -/
def stripL (l : List Char) : List Char :=
  ((l.dropWhile isPyWs).reverse.dropWhile isPyWs).reverse

/-- Python str.strip(). -/
def pyStrip (s : String) : String := ⟨stripL s.data⟩

/-- Python str.lstrip(). -/
def pyLstrip (s : String) : String := ⟨s.data.dropWhile isPyWs⟩

/-- Lowercasing of a single character covering the alphabets the bot uses:
ASCII letters and the Cyrillic range (U+0410..U+042F plus Ё), matching what
Python str.lower() does on the bot's texts. -/
def pyLowerChar (c : Char) : Char :=
  if 'A' ≤ c && c ≤ 'Z' then Char.ofNat (c.toNat + 32)
  else if 0x410 ≤ c.toNat && c.toNat ≤ 0x42F then Char.ofNat (c.toNat + 0x20)
  else if c.toNat == 0x401 then Char.ofNat 0x451
  else c

/-- Python str.lower() restricted to the alphabets appearing in the source. -/
def pyLower (s : String) : String := ⟨s.data.map pyLowerChar⟩

/-- Uppercasing of a single character (ASCII plus Cyrillic), mirroring the
str.upper() calls used on task identifiers. -/
def pyUpperChar (c : Char) : Char :=
  if 'a' ≤ c && c ≤ 'z' then Char.ofNat (c.toNat - 32)
  else if 0x430 ≤ c.toNat && c.toNat ≤ 0x44F then Char.ofNat (c.toNat - 0x20)
  else if c.toNat == 0x451 then Char.ofNat 0x401
  else c

/-- Python str.upper() restricted to the alphabets appearing in the source. -/
def pyUpper (s : String) : String := ⟨s.data.map pyUpperChar⟩

/-- Test whether the first list is an initial segment of the second. -/
def startsWithL : List Char → List Char → Bool
  | [], _ => true
  | _ :: _, [] => false
  | a :: as, b :: bs => a == b && startsWithL as bs

/-- Python substring containment needle in hay (the in operator on str). -/
def containsL (needle : List Char) : List Char → Bool
  | [] => needle.isEmpty
  | c :: rest => startsWithL needle (c :: rest) || containsL needle rest

/-- String version of startsWithL: Python str.startswith. -/
def startsWithS (pre s : String) : Bool := startsWithL pre.data s.data

/-- String version of containsL: the Python expression needle in hay. -/
def containsS (needle hay : String) : Bool := containsL needle.data hay.data

/-- Newline join on character lists, mirroring the Python expression
"\n".join(parts). -/
def joinNLL : List (List Char) → List Char
  | [] => []
  | [p] => p
  | p :: q :: ps => p ++ '\n' :: joinNLL (q :: ps)

/-- Newline join on strings. -/
def joinNL (parts : List String) : String := ⟨joinNLL (parts.map String.data)⟩

/-! ## Priority extraction (bot.py, extract_priority) -/

/-- High-priority trigger substrings from the source. -/
def high_priority_triggers : List String :=
  ["#в ", "#с ", "#v ", "#c ", "#высокий", "#high"]

/-- Low-priority trigger substrings from the source. -/
def low_priority_triggers : List String := ["#н ", "#низкий", "#low"]

/-- Embedding of bot.py extract_priority: lowercase the text, look for a high
trigger first, then a low trigger, defaulting to Medium. -/
def extract_priority (text : String) : String :=
  let text_lower := pyLower text
  if high_priority_triggers.any (fun tr => containsS tr text_lower) then "Высокий"
  else if low_priority_triggers.any (fun tr => containsS tr text_lower) then "Низкий"
  else "Средний"

/-- Abbreviation: the lowered text contains some high-priority trigger. -/
def hasHighTrigger (text : String) : Bool :=
  high_priority_triggers.any (fun tr => containsS tr (pyLower text))

/-- Abbreviation: the lowered text contains some low-priority trigger. -/
def hasLowTrigger (text : String) : Bool :=
  low_priority_triggers.any (fun tr => containsS tr (pyLower text))

/-! ## Stale-work threshold clamping (bot.py, MIN_LIMITS block) -/

/-- Sane minimum floors from the MIN_LIMITS dictionary, in hours. -/
def MIN_LIMIT_HIGH : ℚ := 1 / 10

/-- Floor for the Medium priority, in hours. -/
def MIN_LIMIT_MEDIUM : ℚ := 1

/-- Floor for the Low priority, in hours. -/
def MIN_LIMIT_LOW : ℚ := 4

/-- Conversion of the configured minutes value to hours, mirroring
STALE_x_PRIORITY_LIMIT = STALE_x_PRIORITY_MINUTES / 60. -/
def stale_limit_of_minutes (m : ℕ) : ℚ := (m : ℚ) / 60

/-- Startup validation of the High threshold: below the floor the source sets
the limit to 1.0 hours (with a warning), otherwise keeps it. -/
def clamp_high (limit : ℚ) : ℚ := if limit < MIN_LIMIT_HIGH then 1 else limit

/-- Startup validation of the Medium threshold: below the floor the source
sets the limit to 5.0 hours. -/
def clamp_medium (limit : ℚ) : ℚ := if limit < MIN_LIMIT_MEDIUM then 5 else limit

/-- Startup validation of the Low threshold: below the floor the source sets
the limit to 24.0 hours. -/
def clamp_low (limit : ℚ) : ℚ := if limit < MIN_LIMIT_LOW then 24 else limit

/-! ## Theorems for claims C10 and C9 -/

/-- C10: in extract_priority, High triggers dominate Low triggers: a text
containing both (case-insensitively) gets priority Высокий; Низкий is produced
exactly when a Low trigger is present and no High trigger is; Средний exactly
when neither is present. -/
theorem c10_priority_precedence (text : String) :
    (hasHighTrigger text = true → hasLowTrigger text = true →
      extract_priority text = "Высокий") ∧
    (extract_priority text = "Низкий" ↔
      (hasLowTrigger text = true ∧ hasHighTrigger text = false)) ∧
    (extract_priority text = "Средний" ↔
      (hasHighTrigger text = false ∧ hasLowTrigger text = false)) := by
  unfold extract_priority hasHighTrigger hasLowTrigger
  by_cases hh : high_priority_triggers.any
      (fun tr => containsS tr (pyLower text)) = true
  · simp [hh]
  · rw [Bool.not_eq_true] at hh
    by_cases hl : low_priority_triggers.any
        (fun tr => containsS tr (pyLower text)) = true
    · simp [hh, hl]
    · rw [Bool.not_eq_true] at hl
      simp [hh, hl]

/-- Witness for c10_priority_precedence at a concrete text containing both a
High and a Low trigger. -/
theorem c10_priority_precedence_witness :
    extract_priority "#в срочно и #н потом" = "Высокий" :=
  (c10_priority_precedence "#в срочно и #н потом").1 (by decide) (by decide)

/-- Counterexample for C9: the High threshold configured to 3 minutes (0.05
hours) is below the 0.1-hour floor, and the source resets it to 1.0 hours, not
to the 0.1-hour floor the claim names. -/
theorem c9_clamp_counterexample :
    stale_limit_of_minutes 3 < MIN_LIMIT_HIGH ∧
    clamp_high (stale_limit_of_minutes 3) = 1 ∧
    clamp_high (stale_limit_of_minutes 3) ≠ MIN_LIMIT_HIGH := by
  refine ⟨by norm_num [stale_limit_of_minutes, MIN_LIMIT_HIGH], ?_, ?_⟩
  · norm_num [stale_limit_of_minutes, clamp_high, MIN_LIMIT_HIGH]
  · norm_num [stale_limit_of_minutes, clamp_high, MIN_LIMIT_HIGH]

/-- C9 amended: a configured threshold below its priority's floor is reset at
startup to the built-in default for that priority (High 1.0 h, Medium 5.0 h,
Low 24.0 h) — with a warning, never an error — while thresholds at or above
the floor are used unchanged. -/
theorem c9_clamp_amended (q : ℚ) :
    (q < MIN_LIMIT_HIGH → clamp_high q = 1) ∧
    (MIN_LIMIT_HIGH ≤ q → clamp_high q = q) ∧
    (q < MIN_LIMIT_MEDIUM → clamp_medium q = 5) ∧
    (MIN_LIMIT_MEDIUM ≤ q → clamp_medium q = q) ∧
    (q < MIN_LIMIT_LOW → clamp_low q = 24) ∧
    (MIN_LIMIT_LOW ≤ q → clamp_low q = q) := by
  unfold clamp_high clamp_medium clamp_low
  refine ⟨fun h => by simp [h], fun h => by simp [not_lt.mpr h],
    fun h => by simp [h], fun h => by simp [not_lt.mpr h],
    fun h => by simp [h], fun h => by simp [not_lt.mpr h]⟩

/-- Witness for c9_clamp_amended at the concrete below-floor value 0.05 h and
the at-floor value 2 h. -/
theorem c9_clamp_amended_witness :
    clamp_high (1 / 20 : ℚ) = 1 ∧ clamp_high (2 : ℚ) = 2 :=
  ⟨(c9_clamp_amended (1 / 20)).1 (by norm_num [MIN_LIMIT_HIGH]),
   (c9_clamp_amended 2).2.1 (by norm_num [MIN_LIMIT_HIGH])⟩

/-! ## Pending-creation aggregator (bot.py, handle_new_task / finalize_task_job) -/

/-- Split a character list at the first newline, if any, mirroring the Python
expression content.split("\n", 1). -/
def splitFirstNL : List Char → Option (List Char × List Char)
  | [] => none
  | c :: rest =>
    if c == '\n' then some ([], rest)
    else match splitFirstNL rest with
      | none => none
      | some (a, b) => some (c :: a, b)

/-- Test for the creation tag, mirroring
text.startswith("#З ") or text == "#З". -/
def isCreationTag (t : String) : Bool := startsWithS "#З " t || t == "#З"

/-- Embedding of bot.py extract_topic_and_desc.  Python returns (None, None)
for a non-tag text, modelled as none. -/
def extract_topic_and_desc (text : String) : Option (String × String) :=
  if !(startsWithS "#З " text || text == "#З") then none
  else if text == "#З" then some ("", "")
  else
    match splitFirstNL ((text.data.drop 3).dropWhile isPyWs) with
    | some (t, d) => some (pyStrip ⟨t⟩, pyStrip ⟨d⟩)
    | none => some (pyStrip ⟨(text.data.drop 3).dropWhile isPyWs⟩, "")

/-- Transient aggregation entry for one (author, channel) key, mirroring the
dictionary stored in pending_tasks. -/
structure PendingEntry where
  username : Option String
  fullName : String
  userId : Nat
  topic : String
  desc_parts : List String
  msg_ids : List Nat
  start_time : Nat
  deriving DecidableEq

/-- Embedding of bot.py handle_new_task for a fixed aggregation key (the
allowed-user and discussion-chat filters are assumed satisfied; the message
author's identity and the clock are passed in).  The state is the pending
entry for the key, or none. -/
def handle_new_task (username : Option String) (fullName : String)
    (userId now : Nat) (st : Option PendingEntry) (text : String)
    (msgId : Nat) : Option PendingEntry :=
  let t := pyStrip text
  if t == "" then st
  else
    match st with
    | some e =>
      some { e with desc_parts := e.desc_parts ++ [t],
                    msg_ids := e.msg_ids ++ [msgId] }
    | none =>
      if isCreationTag t then
        match extract_topic_and_desc t with
        | some (topic, desc) =>
          some { username := username, fullName := fullName, userId := userId,
                 topic := topic,
                 desc_parts := if desc = "" then [] else [desc],
                 msg_ids := [msgId], start_time := now }
        | none => none
      else none

/-- Fold handle_new_task over a list of (text, message id) arrivals for one
key, in arrival order. -/
def runMessages (username : Option String) (fullName : String)
    (userId now : Nat) (st : Option PendingEntry) :
    List (String × Nat) → Option PendingEntry
  | [] => st
  | (t, m) :: rest =>
    runMessages username fullName userId now
      (handle_new_task username fullName userId now st t m) rest

/-! ## List lemmas for strip and newline-join -/

theorem dropWhile_head_false (p : Char → Bool) :
    ∀ (l : List Char) (c : Char), (l.dropWhile p).head? = some c → p c = false := by
  intro l
  induction l with
  | nil => intro c h; simp [List.dropWhile] at h
  | cons a as ih =>
    intro c h
    by_cases hp : p a = true
    · rw [List.dropWhile_cons, if_pos hp] at h
      exact ih c h
    · rw [List.dropWhile_cons, if_neg hp] at h
      simp at h
      rw [← h]
      exact Bool.eq_false_iff.mpr hp

theorem dropWhile_eq_self_of_head (p : Char → Bool) (l : List Char)
    (h : ∀ c, l.head? = some c → p c = false) : l.dropWhile p = l := by
  cases l with
  | nil => rfl
  | cons a as =>
    have ha : p a = false := h a rfl
    rw [List.dropWhile_cons, if_neg (by simp [ha])]

theorem dropWhile_getLast_eq (p : Char → Bool) :
    ∀ (l : List Char), l.dropWhile p ≠ [] →
      (l.dropWhile p).getLast? = l.getLast? := by
  intro l
  induction l with
  | nil => intro h; simp [List.dropWhile] at h
  | cons a as ih =>
    intro h
    by_cases hp : p a = true
    · rw [List.dropWhile_cons, if_pos hp] at h ⊢
      have has : as ≠ [] := by
        intro hnil; rw [hnil] at h; simp [List.dropWhile] at h
      rw [ih h]
      cases as with
      | nil => exact absurd rfl has
      | cons b bs => rw [List.getLast?_cons_cons]
    · rw [List.dropWhile_cons, if_neg hp]

theorem strip_of_clean (l : List Char)
    (h1 : ∀ c, l.head? = some c → isPyWs c = false)
    (h2 : ∀ c, l.getLast? = some c → isPyWs c = false) : stripL l = l := by
  unfold stripL
  rw [dropWhile_eq_self_of_head _ _ h1]
  rw [dropWhile_eq_self_of_head _ _ (fun c hc => h2 c (by rwa [List.head?_reverse] at hc))]
  exact List.reverse_reverse l

theorem stripL_head_false (l : List Char) (c : Char)
    (h : (stripL l).head? = some c) : isPyWs c = false := by
  unfold stripL at h
  rw [List.head?_reverse] at h
  have hne : ((l.dropWhile isPyWs).reverse.dropWhile isPyWs) ≠ [] := by
    intro hnil; rw [hnil] at h; simp at h
  rw [dropWhile_getLast_eq _ _ hne, List.getLast?_reverse] at h
  exact dropWhile_head_false _ _ _ h

theorem stripL_getLast_false (l : List Char) (c : Char)
    (h : (stripL l).getLast? = some c) : isPyWs c = false := by
  unfold stripL at h
  rw [List.getLast?_reverse] at h
  exact dropWhile_head_false _ _ _ h

theorem stripL_idem (l : List Char) : stripL (stripL l) = stripL l :=
  strip_of_clean _ (stripL_head_false l) (stripL_getLast_false l)

theorem getLast_append_cons (a : Char) (r : List Char) :
    ∀ (l : List Char), (l ++ a :: r).getLast? = (a :: r).getLast? := by
  intro l
  induction l with
  | nil => rfl
  | cons c cs ih =>
    rw [List.cons_append]
    cases hcs : cs ++ a :: r with
    | nil => simp at hcs
    | cons b bs =>
      rw [List.getLast?_cons_cons, ← hcs, ih]

theorem joinNLL_head (p : List Char) (ps : List (List Char)) (hp : p ≠ []) :
    (joinNLL (p :: ps)).head? = p.head? := by
  cases ps with
  | nil => rfl
  | cons q qs =>
    show ((p ++ '\n' :: joinNLL (q :: qs))).head? = p.head?
    cases p with
    | nil => exact absurd rfl hp
    | cons a as => rfl

theorem joinNLL_ne_nil (p : List Char) (ps : List (List Char)) (hp : p ≠ []) :
    joinNLL (p :: ps) ≠ [] := by
  intro h
  have := joinNLL_head p ps hp
  rw [h] at this
  cases p with
  | nil => exact hp rfl
  | cons a as => simp at this

theorem joinNLL_getLast_mem :
    ∀ (parts : List (List Char)), (∀ p ∈ parts, p ≠ []) → parts ≠ [] →
      ∃ p, p ∈ parts ∧ (joinNLL parts).getLast? = p.getLast? := by
  intro parts
  induction parts with
  | nil => intro _ h; exact absurd rfl h
  | cons p ps ih =>
    intro hne _
    cases ps with
    | nil => exact ⟨p, List.mem_singleton_self p, rfl⟩
    | cons q qs =>
      have hq : q ≠ [] := hne q (by simp)
      obtain ⟨r, hr_mem, hr⟩ := ih (fun x hx => hne x (List.mem_cons_of_mem _ hx))
        (by simp)
      refine ⟨r, List.mem_cons_of_mem _ hr_mem, ?_⟩
      show ((p ++ '\n' :: joinNLL (q :: qs))).getLast? = r.getLast?
      rw [getLast_append_cons]
      have hjn : joinNLL (q :: qs) ≠ [] := joinNLL_ne_nil q qs hq
      cases hj : joinNLL (q :: qs) with
      | nil => exact absurd hj hjn
      | cons b bs =>
        rw [List.getLast?_cons_cons, ← hj, hr]

theorem strip_joinNLL (parts : List (List Char))
    (hne : ∀ p ∈ parts, p ≠ [])
    (hstable : ∀ p ∈ parts, stripL p = p) :
    stripL (joinNLL parts) = joinNLL parts := by
  cases parts with
  | nil => rfl
  | cons p ps =>
    have hp : p ≠ [] := hne p (by simp)
    apply strip_of_clean
    · intro c hc
      rw [joinNLL_head p ps hp] at hc
      have := hstable p (by simp)
      rw [← this] at hc
      exact stripL_head_false _ _ hc
    · intro c hc
      obtain ⟨r, hr_mem, hr⟩ := joinNLL_getLast_mem (p :: ps) hne (by simp)
      rw [hr] at hc
      have := hstable r hr_mem
      rw [← this] at hc
      exact stripL_getLast_false _ _ hc

/-! ## Helper facts about extract_topic_and_desc and the aggregator -/

theorem eq_empty_of_data_nil (s : String) (h : s.data = []) : s = "" := by
  cases s with
  | mk l =>
    simp at h
    rw [h]

theorem data_ne_nil_of_ne_empty (s : String) (h : s ≠ "") : s.data ≠ [] :=
  fun hd => h (eq_empty_of_data_nil s hd)

theorem extract_tag_of_some (t topic desc : String)
    (h : extract_topic_and_desc t = some (topic, desc)) :
    isCreationTag t = true := by
  unfold extract_topic_and_desc at h
  by_cases hg : (startsWithS "#З " t || t == "#З") = true
  · unfold isCreationTag
    exact hg
  · rw [Bool.not_eq_true] at hg
    simp [hg] at h

theorem extract_desc_stable (t topic desc : String)
    (h : extract_topic_and_desc t = some (topic, desc)) :
    stripL desc.data = desc.data := by
  unfold extract_topic_and_desc at h
  by_cases hg : (startsWithS "#З " t || t == "#З") = true
  · rw [if_neg (by simp [hg])] at h
    by_cases he : (t == "#З") = true
    · rw [if_pos he] at h
      simp at h
      rw [← h.2]
      rfl
    · rw [if_neg he] at h
      cases hs : splitFirstNL ((t.data.drop 3).dropWhile isPyWs) with
      | none =>
        rw [hs] at h
        simp at h
        rw [← h.2]
        rfl
      | some pr =>
        obtain ⟨a, b⟩ := pr
        rw [hs] at h
        simp at h
        rw [← h.2]
        exact stripL_idem b
  · rw [Bool.not_eq_true] at hg
    simp [hg] at h

theorem creation_tag_ne_empty (t : String) (h : isCreationTag t = true) :
    t ≠ "" := by
  intro he
  rw [he] at h
  exact absurd h (by decide)

theorem runMessages_append (username : Option String) (fullName : String)
    (userId now : Nat) :
    ∀ (msgs : List (String × Nat)) (e : PendingEntry),
      (∀ p ∈ msgs, pyStrip p.1 ≠ "") →
      runMessages username fullName userId now (some e) msgs
        = some { e with
            desc_parts := e.desc_parts ++ msgs.map (fun p => pyStrip p.1),
            msg_ids := e.msg_ids ++ msgs.map Prod.snd } := by
  intro msgs
  induction msgs with
  | nil =>
    intro e _
    simp [runMessages]
  | cons pm rest ih =>
    intro e h
    obtain ⟨t, m⟩ := pm
    have ht : pyStrip t ≠ "" := h (t, m) (by simp)
    have hb : (pyStrip t == "") = false := beq_eq_false_iff_ne.mpr ht
    show runMessages username fullName userId now
        (handle_new_task username fullName userId now (some e) t m) rest = _
    rw [show handle_new_task username fullName userId now (some e) t m
        = some { e with desc_parts := e.desc_parts ++ [pyStrip t],
                        msg_ids := e.msg_ids ++ [m] } by
      simp [handle_new_task, hb]]
    rw [ih _ (fun p hp => h p (List.mem_cons_of_mem _ hp))]
    simp [List.append_assoc]

theorem strip_joinNL_of (parts : List String)
    (h : ∀ s ∈ parts, s ≠ "" ∧ stripL s.data = s.data) :
    pyStrip (joinNL parts) = joinNL parts := by
  show String.mk (stripL (joinNLL (parts.map String.data))) = _
  have := strip_joinNLL (parts.map String.data)
    (by
      intro p hp
      obtain ⟨s, hs, rfl⟩ := List.mem_map.mp hp
      exact data_ne_nil_of_ne_empty s (h s hs).1)
    (by
      intro p hp
      obtain ⟨s, hs, rfl⟩ := List.mem_map.mp hp
      exact (h s hs).2)
  rw [this]
  rfl

/-! ## Theorems for claim C2 -/

/-- Counterexample for C2: with an aggregation already pending for the key
(opened by the first tag message), a second creation-tag message is absorbed
into the existing entry as a plain description fragment.  The existing entry
is not finalized (it is still pending, with the old topic and both message
ids) and no fresh entry is opened for the new message. -/
theorem c2_tag_while_pending_counterexample :
    handle_new_task none "Иван" 7 0
        (handle_new_task none "Иван" 7 0 none "#З Первая задача\nописание" 10)
        "#З Вторая задача" 11
      = some ⟨none, "Иван", 7, "Первая задача",
          ["описание", "#З Вторая задача"], [10, 11], 0⟩ ∧
    handle_new_task none "Иван" 7 0
        (handle_new_task none "Иван" 7 0 none "#З Первая задача\nописание" 10)
        "#З Вторая задача" 11
      ≠ handle_new_task none "Иван" 7 0 none "#З Вторая задача" 11 := by
  decide

/-- C2 amended: a creation-tag message arriving while a pending aggregation
exists for the same key does not finalize the existing entry and does not open
a new one; its full text is appended to the pending entry's description
fragments and its message id is recorded, so only the original debounce timer
will finalize the (single) entry. -/
theorem c2_tag_while_pending_amended (username : Option String)
    (fullName : String) (userId now : Nat) (e : PendingEntry) (t : String)
    (m : Nat) (hne : pyStrip t ≠ "") (htag : isCreationTag (pyStrip t) = true) :
    handle_new_task username fullName userId now (some e) t m
      = some { e with desc_parts := e.desc_parts ++ [pyStrip t],
                      msg_ids := e.msg_ids ++ [m] } := by
  have hb : (pyStrip t == "") = false := beq_eq_false_iff_ne.mpr hne
  simp [handle_new_task, hb]

/-- Witness for c2_tag_while_pending_amended at a concrete pending entry and
tag message. -/
theorem c2_tag_while_pending_amended_witness :
    handle_new_task none "Иван" 7 0
        (some ⟨none, "Иван", 7, "Тема", ["а"], [1], 0⟩) "#З Новая" 2
      = some ⟨none, "Иван", 7, "Тема", ["а", "#З Новая"], [1, 2], 0⟩ :=
  c2_tag_while_pending_amended none "Иван" 7 0
    ⟨none, "Иван", 7, "Тема", ["а"], [1], 0⟩ "#З Новая" 2
    (by decide) (by decide)

/-! ## Theorem for claim C7 -/

/-- C7: for one creation-tag message followed by N further messages from the
same key before the debounce timer fires, the finalized description equals the
fragments joined by single newlines in arrival order, the tag message
contributing the text after its first line as the initial fragment (omitted
when empty). -/
theorem c7_description_join (username : Option String) (fullName : String)
    (userId now : Nat) (tag topic desc : String) (msgs : List (String × Nat))
    (htag : extract_topic_and_desc (pyStrip tag) = some (topic, desc))
    (hne : ∀ p ∈ msgs, pyStrip p.1 ≠ "")
    (hnontag : ∀ p ∈ msgs, isCreationTag (pyStrip p.1) = false) :
    (runMessages username fullName userId now
        (handle_new_task username fullName userId now none tag 0) msgs).map
      (fun e => pyStrip (joinNL e.desc_parts))
      = some (joinNL ((if desc = "" then [] else [desc])
          ++ msgs.map (fun p => pyStrip p.1))) := by
  have hct : isCreationTag (pyStrip tag) = true := extract_tag_of_some _ _ _ htag
  have hts : pyStrip tag ≠ "" := creation_tag_ne_empty _ hct
  have hb : (pyStrip tag == "") = false := beq_eq_false_iff_ne.mpr hts
  have h0 : handle_new_task username fullName userId now none tag 0
      = some ⟨username, fullName, userId, topic,
          (if desc = "" then [] else [desc]), [0], now⟩ := by
    simp [handle_new_task, hb, hct, htag]
  rw [h0, runMessages_append username fullName userId now msgs _ hne]
  simp only [Option.map_some']
  congr 1
  apply strip_joinNL_of
  intro s hs
  rcases List.mem_append.mp hs with hs0 | hsm
  · by_cases hd : desc = ""
    · rw [if_pos hd] at hs0
      simp at hs0
    · rw [if_neg hd] at hs0
      rw [List.mem_singleton.mp hs0]
      exact ⟨hd, extract_desc_stable _ _ _ htag⟩
  · obtain ⟨p, hp, rfl⟩ := List.mem_map.mp hsm
    exact ⟨hne p hp, stripL_idem _⟩

/-- Witness for c7_description_join on the end-to-end scenario from the spec:
a tag message with topic and first description line, followed by one more
message. -/
theorem c7_description_join_witness :
    (runMessages none "Пётр" 3 0
        (handle_new_task none "Пётр" 3 0 none
          "#З Починить роутер\nРоутер недоступен" 1)
        [("Проверить порт 8080", 2)]).map
      (fun e => pyStrip (joinNL e.desc_parts))
      = some "Роутер недоступен\nПроверить порт 8080" :=
  c7_description_join none "Пётр" 3 0 "#З Починить роутер\nРоутер недоступен"
    "Починить роутер" "Роутер недоступен" [("Проверить порт 8080", 2)]
    (by decide) (by decide) (by decide)

/-! ## Persistent store rows and registries -/

/-- Persisted task row with the 15 columns of the sheet, in order: id,
createdDate, createdTime, topic, description, author, executor, status,
assignedAt, completedAt, tags, msgId, threadId, priority, closedBy. -/
structure Row where
  id : String
  createdDate : String
  createdTime : String
  topic : String
  description : String
  author : String
  executor : String
  status : String
  assignedAt : String
  completedAt : String
  tags : String
  msgId : String
  threadId : String
  priority : String
  closedBy : String
  deriving DecidableEq

/-- Row search over column 1, mirroring the loop
for i, tid in enumerate(all_ids): if tid and tid.strip() == task_id
(the truthiness test on tid is subsumed because the searched id is never
empty). -/
def findRowIdx (store : List Row) (taskId : String) : Option Nat :=
  store.findIdx? (fun r => pyStrip r.id == taskId)

/-- Row search used by cmd_operational and cmd_task, which compare
tid.strip().upper() against the normalized argument. -/
def findRowIdxUpper (store : List Row) (taskId : String) : Option Nat :=
  store.findIdx? (fun r => pyUpper (pyStrip r.id) == taskId)

/-- Pointwise update of the row at an index, mirroring the update_cell calls
on the located row. -/
def updateRow : List Row → Nat → (Row → Row) → List Row
  | [], _, _ => []
  | r :: rs, 0, f => f r :: rs
  | r :: rs, n + 1, f => r :: updateRow rs n f

/-- Association-list lookup, mirroring Python dict access with string keys. -/
def alookup {α : Type} : List (String × α) → String → Option α
  | [], _ => none
  | (k, v) :: rest, key => if k == key then some v else alookup rest key

/-- Association-list deletion, mirroring del d[key] / d.pop(key, None). -/
def aerase {α : Type} : List (String × α) → String → List (String × α)
  | [], _ => []
  | (k, v) :: rest, key =>
    if k == key then aerase rest key else (k, v) :: aerase rest key

/-- Association-list insertion or replacement, mirroring d[key] = v. -/
def ainsert {α : Type} : List (String × α) → String → α → List (String × α)
  | [], key, v => [(key, v)]
  | (k, w) :: rest, key, v =>
    if k == key then (key, v) :: rest else (k, w) :: ainsert rest key v

/-! ## Reply parsing (bot.py, handle_task_reply) -/

/-- Match of the literal TASK- followed by four digits at the head of the
list, the anchored step of the regex TASK-(backslash-d times four). -/
def taskRefAt : List Char → Option String
  | 'T' :: 'A' :: 'S' :: 'K' :: '-' :: a :: b :: c :: d :: _ =>
    if a.isDigit && b.isDigit && c.isDigit && d.isDigit then
      some ⟨['T', 'A', 'S', 'K', '-', a, b, c, d]⟩
    else none
  | _ => none

/-- Leftmost search for a task reference, mirroring re.search over the quoted
message text. -/
def findTaskRefL : List Char → Option String
  | [] => none
  | c :: rest =>
    match taskRefAt (c :: rest) with
    | some s => some s
    | none => findTaskRefL rest

/-- String wrapper for findTaskRefL. -/
def findTaskRef (s : String) : Option String := findTaskRefL s.data

/-- Cyrillic letters, for the Unicode-aware word class of the regex. -/
def isCyrLetter (c : Char) : Bool :=
  (0x410 ≤ c.toNat && c.toNat ≤ 0x44F) || c.toNat == 0x401 || c.toNat == 0x451

/-- Word characters of the regex class (ASCII letters and digits, underscore,
and the Cyrillic letters the chat uses). -/
def isWordChar (c : Char) : Bool := c.isAlphanum || c == '_' || isCyrLetter c

/-- Maximal run of word characters, the greedy tail of the handle match. -/
def takeWordRun : List Char → List Char
  | [] => []
  | c :: rest => if isWordChar c then c :: takeWordRun rest else []

/-- Leftmost match of an at-sign followed by at least one word character,
mirroring re.search of the handle pattern. -/
def extractHandleL : List Char → Option String
  | [] => none
  | c :: rest =>
    match c, rest with
    | '@', d :: rest' =>
      if isWordChar d then some ⟨'@' :: d :: takeWordRun rest'⟩
      else extractHandleL rest
    | _, _ => extractHandleL rest

/-- Presence of an assignment handle in the reply text. -/
def hasHandle (t : String) : Bool := (extractHandleL t.data).isSome

/-- The matched handle (only meaningful when hasHandle holds). -/
def extractHandle (t : String) : String := (extractHandleL t.data).getD ""

/-- Completion keywords from the source. -/
def completion_triggers : List String := ["#выполнено", "готово", "решено"]

/-- Operational-tag keywords from the source. -/
def oper_triggers : List String := ["#опер", "#операционная", "#опер. задача"]

/-- Resolution of the replying user's display name, mirroring
users_mapping.get(raw_username, raw_username or full_name). -/
def resolveName (users : List (String × String)) (username : Option String)
    (fullName : String) : String :=
  match username with
  | some u => (alookup users ("@" ++ u)).getD ("@" ++ u)
  | none => fullName

/-- Resolution of the auto-assigned executor in the operational branch,
mirroring users_mapping.get(auto_executor, auto_executor): when the user has
no username the bare full name itself is looked up as the key. -/
def resolveAuto (users : List (String × String)) (username : Option String)
    (fullName : String) : String :=
  match username with
  | some u => (alookup users ("@" ++ u)).getD ("@" ++ u)
  | none => (alookup users fullName).getD fullName

/-- Escalation registry entry, mirroring the urgent_watchlist values.  Times
are seconds on the Moscow wall clock. -/
structure WatchEntry where
  createdAt : Nat
  jobName : String
  topic : String
  notifiedCount : Nat
  deriving DecidableEq

/-- Result of processing one reply: the new store, the new escalation
registry, and whether a transition was applied (which triggers deletion of
the action message). -/
structure ReplyResult where
  store : List Row
  watch : List (String × WatchEntry)
  processed : Bool
  deriving DecidableEq

/-- Embedding of bot.py handle_task_reply: resolve the task from the quoted
announcement text, stop if it is Done, then apply the assignment, completion
or operational transition selected by the reply text.  The chat-transport
edits and notifications are external effects and are not part of the state;
the per-branch try/except blocks in the source only guard those external
calls. -/
def handle_task_reply (users : List (String × String)) (nowStr : String)
    (username : Option String) (fullName : String)
    (store : List Row) (watch : List (String × WatchEntry))
    (quoted text : String) : ReplyResult :=
  let t := pyStrip text
  if t == "" then ⟨store, watch, false⟩
  else
    match findTaskRef quoted with
    | none => ⟨store, watch, false⟩
    | some taskId =>
      match findRowIdx store taskId with
      | none => ⟨store, watch, false⟩
      | some i =>
        match store[i]? with
        | none => ⟨store, watch, false⟩
        | some row =>
          if row.status == "Выполнено" then ⟨store, watch, false⟩
          else if hasHandle t then
            let handle := extractHandle t
            let executor_name := (alookup users handle).getD handle
            let store' := updateRow store i (fun r =>
              { r with executor := executor_name, status := "В работе",
                       assignedAt := nowStr })
            ⟨store', aerase watch taskId, true⟩
          else if completion_triggers.any (fun tr => containsS tr (pyLower t)) then
            let closer := resolveName users username fullName
            let store' := updateRow store i (fun r =>
              { r with status := "Выполнено", completedAt := nowStr,
                       closedBy := closer })
            ⟨store', aerase watch taskId, true⟩
          else if oper_triggers.any (fun tr => containsS tr (pyLower t)) then
            let store' := updateRow store i (fun r =>
              { r with status := "Операционная задача" })
            let store2 :=
              if pyStrip row.executor == "" then
                updateRow store' i (fun r =>
                  { r with executor := resolveAuto users username fullName })
              else store'
            let store3 :=
              if pyStrip row.assignedAt == "" then
                updateRow store2 i (fun r => { r with assignedAt := nowStr })
              else store2
            ⟨store3, watch, true⟩
          else ⟨store, watch, false⟩

/-- Embedding of bot.py cmd_operational for an already-normalized task id
argument: locate the row, refuse if Done, set the Operational status, and
stamp assignedAt only when the task was Unassigned.  The escalation registry
is not touched by this command. -/
def cmd_operational (nowStr : String) (store : List Row) (taskId : String) :
    List Row :=
  match findRowIdxUpper store taskId with
  | none => store
  | some i =>
    match store[i]? with
    | none => store
    | some row =>
      let current := pyStrip row.status
      if containsS "выполнено" (pyLower current) then store
      else
        let store' := updateRow store i (fun r =>
          { r with status := "Операционная задача" })
        if containsS "не распределено" (pyLower current) then
          updateRow store' i (fun r => { r with assignedAt := nowStr })
        else store'

theorem updateRow_get (f : Row → Row) :
    ∀ (store : List Row) (i : Nat) (r : Row), store[i]? = some r →
      (updateRow store i f)[i]? = some (f r) := by
  intro store
  induction store with
  | nil => intro i r h; simp at h
  | cons a as ih =>
    intro i r h
    cases i with
    | zero =>
      simp at h
      rw [← h]
      show (f a :: as)[0]? = some (f a)
      simp
    | succ n =>
      simp at h
      show (a :: updateRow as n f)[n + 1]? = some (f r)
      simp [ih n r h]

/-! ## Theorems for claim C1 -/

/-- C1: Done is terminal.  When the task a reply resolves to has stored
status Выполнено, handle_task_reply returns with the store and the escalation
registry unchanged and no transition processed, for every reply text
(assignment handle, completion keyword, operational tag or anything else);
and cmd_operational likewise leaves the store unchanged. -/
theorem c1_done_terminal :
    (∀ (users : List (String × String)) (nowStr : String)
        (username : Option String) (fullName : String) (store : List Row)
        (watch : List (String × WatchEntry)) (quoted text taskId : String)
        (i : Nat) (row : Row),
      findTaskRef quoted = some taskId →
      findRowIdx store taskId = some i →
      store[i]? = some row →
      row.status = "Выполнено" →
      handle_task_reply users nowStr username fullName store watch quoted text
        = ⟨store, watch, false⟩) ∧
    (∀ (nowStr : String) (store : List Row) (taskId : String) (i : Nat)
        (row : Row),
      findRowIdxUpper store taskId = some i →
      store[i]? = some row →
      row.status = "Выполнено" →
      cmd_operational nowStr store taskId = store) := by
  constructor
  · intro users nowStr username fullName store watch quoted text taskId i row
      hq hi hr hd
    unfold handle_task_reply
    by_cases ht : (pyStrip text == "") = true
    · simp [ht]
    · rw [Bool.not_eq_true] at ht
      simp only [ht, hq, hi, hr, hd]
      simp
  · intro nowStr store taskId i row hi hr hd
    unfold cmd_operational
    have hc : containsS "выполнено" (pyLower (pyStrip row.status)) = true := by
      rw [hd]
      decide
    simp only [hi, hr, hc]
    simp

/-- Concrete Done row for the C1 witness. -/
def c1_row : Row :=
  ⟨"TASK-0001", "2026-01-01", "10:00:00", "Тема", "", "Автор", "Иван",
   "Выполнено", "2026-01-01 11:00:00", "2026-01-01 12:00:00", "", "5",
   "", "Высокий", "Иван"⟩

/-- Witness for c1_done_terminal: a concrete Done row, an assignment reply,
and the oper command, both leaving the store untouched. -/
theorem c1_done_terminal_witness :
    handle_task_reply [] "2026-01-02 09:00:00" none "Пётр" [c1_row]
        [("TASK-0001", ⟨0, "urgent_watch_TASK-0001", "Тема", 1⟩)]
        "Задача #TASK-0001" "@новый"
      = ⟨[c1_row],
         [("TASK-0001", ⟨0, "urgent_watch_TASK-0001", "Тема", 1⟩)], false⟩ ∧
    cmd_operational "2026-01-02 09:00:00" [c1_row] "TASK-0001" = [c1_row] :=
  ⟨c1_done_terminal.1 [] "2026-01-02 09:00:00" none "Пётр" [c1_row]
      [("TASK-0001", ⟨0, "urgent_watch_TASK-0001", "Тема", 1⟩)]
      "Задача #TASK-0001" "@новый" "TASK-0001" 0 c1_row (by decide) (by decide)
      (by decide) (by decide),
   c1_done_terminal.2 "2026-01-02 09:00:00" [c1_row] "TASK-0001" 0 c1_row
      (by decide) (by decide) (by decide)⟩

/-! ## Theorems for claim C6 -/

/-- Concrete in-progress row with assignedAt already set, for the C6
counterexample. -/
def c6_row : Row :=
  ⟨"TASK-0001", "2026-01-01", "10:00:00", "Тема", "Описание", "Автор", "Иван",
   "В работе", "2026-01-01 11:00:00", "", "", "5", "", "Средний", ""⟩

/-- Counterexample for C6: the task already has assignedAt set (it is in
progress), yet a second assignment reply overwrites column 9 with the new
time, so assignedAt is not written exactly once. -/
theorem c6_assignedat_counterexample :
    c6_row.assignedAt = "2026-01-01 11:00:00" ∧
    ((handle_task_reply [] "2026-01-02 09:00:00" none "Пётр" [c6_row] []
        "Задача #TASK-0001" "@petrov").store[0]?).map Row.assignedAt
      = some "2026-01-02 09:00:00" ∧
    ("2026-01-02 09:00:00" : String) ≠ "2026-01-01 11:00:00" := by
  refine ⟨rfl, by decide, by decide⟩

/-- C6 amended: every assignment reply on a non-Done task writes assignedAt
(overwriting any earlier value), while the operational transitions preserve
an already-set assignedAt: the reply tag stamps it only when column 9 is
blank, and the oper command stamps it only when the task is Unassigned. -/
theorem c6_assignedat_amended :
    (∀ (users : List (String × String)) (nowStr : String)
        (username : Option String) (fullName : String) (store : List Row)
        (watch : List (String × WatchEntry)) (quoted text taskId : String)
        (i : Nat) (row : Row),
      findTaskRef quoted = some taskId →
      findRowIdx store taskId = some i →
      store[i]? = some row →
      row.status ≠ "Выполнено" →
      hasHandle (pyStrip text) = true →
      ((handle_task_reply users nowStr username fullName store watch quoted
          text).store[i]?).map Row.assignedAt = some nowStr) ∧
    (∀ (users : List (String × String)) (nowStr : String)
        (username : Option String) (fullName : String) (store : List Row)
        (watch : List (String × WatchEntry)) (quoted text taskId : String)
        (i : Nat) (row : Row),
      findTaskRef quoted = some taskId →
      findRowIdx store taskId = some i →
      store[i]? = some row →
      row.status ≠ "Выполнено" →
      hasHandle (pyStrip text) = false →
      completion_triggers.any
        (fun tr => containsS tr (pyLower (pyStrip text))) = false →
      oper_triggers.any
        (fun tr => containsS tr (pyLower (pyStrip text))) = true →
      pyStrip row.assignedAt ≠ "" →
      ((handle_task_reply users nowStr username fullName store watch quoted
          text).store[i]?).map Row.assignedAt = some row.assignedAt) ∧
    (∀ (nowStr : String) (store : List Row) (taskId : String) (i : Nat)
        (row : Row),
      findRowIdxUpper store taskId = some i →
      store[i]? = some row →
      containsS "выполнено" (pyLower (pyStrip row.status)) = false →
      ((cmd_operational nowStr store taskId)[i]?).map Row.assignedAt
        = (if containsS "не распределено" (pyLower (pyStrip row.status)) = true
           then some nowStr else some row.assignedAt)) := by
  refine ⟨?_, ?_, ?_⟩
  · intro users nowStr username fullName store watch quoted text taskId i row
      hq hi hr hd hh
    have hte : (pyStrip text == "") = false := by
      cases he : pyStrip text == ""
      · rfl
      · rw [beq_iff_eq.mp he] at hh
        exact absurd hh (by decide)
    have hds : (row.status == "Выполнено") = false := beq_eq_false_iff_ne.mpr hd
    unfold handle_task_reply
    simp only [hte, hq, hi, hr, hds, hh]
    simp [updateRow_get _ store i row hr]
  · intro users nowStr username fullName store watch quoted text taskId i row
      hq hi hr hd hh hc ho ha
    have hte : (pyStrip text == "") = false := by
      cases he : pyStrip text == ""
      · rfl
      · rw [beq_iff_eq.mp he] at ho
        exact absurd ho (by decide)
    have hds : (row.status == "Выполнено") = false := beq_eq_false_iff_ne.mpr hd
    have has : (pyStrip row.assignedAt == "") = false := beq_eq_false_iff_ne.mpr ha
    unfold handle_task_reply
    simp only [hte, hq, hi, hr, hds, hh, hc, ho, has]
    by_cases hex : (pyStrip row.executor == "") = true
    · simp only [hex]
      have h1 := updateRow_get
        (fun r => { r with status := "Операционная задача" }) store i row hr
      have h2 := updateRow_get
        (fun r => { r with executor := resolveAuto users username fullName })
        _ i _ h1
      simp [h2]
    · rw [Bool.not_eq_true] at hex
      simp only [hex]
      have h1 := updateRow_get
        (fun r => { r with status := "Операционная задача" }) store i row hr
      simp [h1]
  · intro nowStr store taskId i row hi hr hdone
    unfold cmd_operational
    simp only [hi, hr, hdone]
    by_cases hu : containsS "не распределено" (pyLower (pyStrip row.status)) = true
    · simp only [hu]
      have h1 := updateRow_get
        (fun r => { r with status := "Операционная задача" }) store i row hr
      have h2 := updateRow_get
        (fun r => { r with assignedAt := nowStr }) _ i _ h1
      simp [h2]
    · rw [Bool.not_eq_true] at hu
      simp only [hu]
      have h1 := updateRow_get
        (fun r => { r with status := "Операционная задача" }) store i row hr
      simp [h1]

/-- Witness for c6_assignedat_amended: a concrete re-assignment overwrites,
and a concrete oper reply on an already-assigned task preserves assignedAt. -/
theorem c6_assignedat_amended_witness :
    ((handle_task_reply [] "2026-01-02 09:00:00" none "Пётр" [c6_row] []
        "Задача #TASK-0001" "@petrov").store[0]?).map Row.assignedAt
      = some "2026-01-02 09:00:00" ∧
    ((handle_task_reply [] "2026-01-02 09:00:00" none "Пётр" [c6_row] []
        "Задача #TASK-0001" "#опер").store[0]?).map Row.assignedAt
      = some "2026-01-01 11:00:00" :=
  ⟨c6_assignedat_amended.1 [] "2026-01-02 09:00:00" none "Пётр" [c6_row] []
      "Задача #TASK-0001" "@petrov" "TASK-0001" 0 c6_row (by decide)
      (by decide) (by decide) (by decide) (by decide),
   c6_assignedat_amended.2.1 [] "2026-01-02 09:00:00" none "Пётр" [c6_row] []
      "Задача #TASK-0001" "#опер" "TASK-0001" 0 c6_row (by decide) (by decide)
      (by decide) (by decide) (by decide) (by decide) (by decide) (by decide)⟩

/-! ## Escalation watchdog (bot.py, check_urgent_unassigned and timers) -/

/-- Default initial delay before the first escalation check, in minutes
(env URGENT_UNASSIGNED_DELAY, default 5). -/
def URGENT_UNASSIGNED_DELAY : Nat := 5

/-- Default repeat interval between escalation checks, in minutes
(env URGENT_UNASSIGNED_INTERVAL, default 5). -/
def URGENT_UNASSIGNED_INTERVAL : Nat := 5

/-- Escalation alert sent to the discussion chat: task id, topic, waiting
time in minutes, and notification sequence number. -/
structure Alert where
  taskId : String
  topic : String
  elapsedMinutes : Nat
  count : Nat
  deriving DecidableEq

/-- Result of one check_urgent_unassigned firing: the new registry, the
alerts sent, and the rescheduled checks as (delay in minutes, task id). -/
structure CheckResult where
  watch : List (String × WatchEntry)
  alerts : List Alert
  scheds : List (Nat × String)
  deriving DecidableEq

/-- Embedding of bot.py check_urgent_unassigned.  During quiet hours or on a
weekend the firing short-circuits without removal or rescheduling; a missing
registry entry means the timer was cancelled; then the authoritative store
row decides: an absent or no-longer-eligible row deregisters the task, an
eligible row increments the counter, emits one alert and reschedules after
the fixed interval. -/
def check_urgent_unassigned (quiet weekend : Bool) (nowSec : Nat)
    (store : List Row) (watch : List (String × WatchEntry))
    (taskId topic : String) (createdAtSec : Nat) : CheckResult :=
  if quiet then ⟨watch, [], []⟩
  else if weekend then ⟨watch, [], []⟩
  else
    match alookup watch taskId with
    | none => ⟨watch, [], []⟩
    | some entry =>
      match findRowIdx store taskId with
      | none => ⟨aerase watch taskId, [], []⟩
      | some i =>
        match store[i]? with
        | none => ⟨aerase watch taskId, [], []⟩
        | some row =>
          if pyStrip row.priority != "Высокий"
              || pyStrip row.status != "Не распределено"
              || pyStrip row.executor != "" then
            ⟨aerase watch taskId, [], []⟩
          else
            ⟨ainsert watch taskId
               { entry with notifiedCount := entry.notifiedCount + 1 },
             [⟨taskId, topic, (nowSec - createdAtSec) / 60,
               entry.notifiedCount + 1⟩],
             [(URGENT_UNASSIGNED_INTERVAL, taskId)]⟩

/-- Paused escalation entry: a watch entry annotated with the elapsed minutes
recorded at the quiet-hours boundary. -/
structure PausedEntry where
  createdAt : Nat
  jobName : String
  topic : String
  notifiedCount : Nat
  elapsedMinutes : Nat
  deriving DecidableEq

/-- Embedding of bot.py pause_all_timers: with an empty active registry
nothing happens; otherwise every active entry is cancelled and moved (with
its elapsed minutes) into the paused set, replacing it, and the active
registry is cleared. -/
def pause_all_timers (nowSec : Nat) (watch : List (String × WatchEntry))
    (paused : List (String × PausedEntry)) :
    List (String × WatchEntry) × List (String × PausedEntry) :=
  if watch.isEmpty then (watch, paused)
  else
    ([], watch.map (fun kv =>
      (kv.1, ⟨kv.2.createdAt, kv.2.jobName, kv.2.topic, kv.2.notifiedCount,
        (nowSec - kv.2.createdAt) / 60⟩)))

/-- Firing offset computed by resume_all_timers for one paused entry:
the next multiple of the interval after the recorded elapsed minutes, with
the source's (unreachable) fresh-interval fallback. -/
def resume_offset (elapsedMinutes : Nat) : Nat :=
  let next_notify_at :=
    (elapsedMinutes / URGENT_UNASSIGNED_INTERVAL + 1) * URGENT_UNASSIGNED_INTERVAL
  let remaining := next_notify_at - elapsedMinutes
  if remaining ≤ 0 then URGENT_UNASSIGNED_INTERVAL else remaining

/-- Embedding of bot.py resume_all_timers: with an empty paused set nothing
happens; otherwise the active registry is rebuilt from the paused entries and
each is rescheduled after its resume_offset. -/
def resume_all_timers (watch : List (String × WatchEntry))
    (paused : List (String × PausedEntry)) :
    List (String × WatchEntry) × List (String × PausedEntry) ×
      List (Nat × String) :=
  if paused.isEmpty then (watch, paused, [])
  else
    (paused.map (fun kv =>
       (kv.1, ⟨kv.2.createdAt, "urgent_watch_" ++ kv.1, kv.2.topic,
         kv.2.notifiedCount⟩)),
     [],
     paused.map (fun kv => (resume_offset kv.2.elapsedMinutes, kv.1)))

/-! ## Timestamp parsing for startup recovery -/

/-- Gregorian leap-year test. -/
def isLeap (y : Nat) : Bool := (y % 4 == 0 && y % 100 != 0) || y % 400 == 0

/-- Days in a month, used to validate the day field as strptime does. -/
def daysInMonth (y m : Nat) : Nat :=
  if m == 2 then (if isLeap y then 29 else 28)
  else if m == 4 || m == 6 || m == 9 || m == 11 then 30
  else 31

/-- Day number of a civil date (days since 0000-03-01); only differences of
these values are ever used, so the epoch is irrelevant. -/
def daysFromCivil (y m d : Nat) : Nat :=
  let y' := if m ≤ 2 then y - 1 else y
  let era := y' / 400
  let yoe := y' % 400
  let mp := if m > 2 then m - 3 else m + 9
  let doy := (153 * mp + 2) / 5 + (d - 1)
  let doe := yoe * 365 + yoe / 4 - yoe / 100 + doy
  era * 146097 + doe

/-- Numeric value of a digit character. -/
def digitVal (c : Char) : Nat := c.toNat - 48

/-- Parser for the exact strptime format of a date, yielding seconds on the
(fixed-offset) Moscow wall clock. -/
def parseDateSecL : List Char → Option Nat
  | [y1, y2, y3, y4, '-', m1, m2, '-', d1, d2] =>
    if y1.isDigit && y2.isDigit && y3.isDigit && y4.isDigit && m1.isDigit &&
        m2.isDigit && d1.isDigit && d2.isDigit then
      let y := ((digitVal y1 * 10 + digitVal y2) * 10 + digitVal y3) * 10 +
        digitVal y4
      let m := digitVal m1 * 10 + digitVal m2
      let d := digitVal d1 * 10 + digitVal d2
      if 1 ≤ m ∧ m ≤ 12 ∧ 1 ≤ d ∧ d ≤ daysInMonth y m then
        some (daysFromCivil y m d * 86400)
      else none
    else none
  | _ => none

/-- Parser for the exact strptime format of a date plus time of day. -/
def parseDateTimeSecL : List Char → Option Nat
  | y1 :: y2 :: y3 :: y4 :: '-' :: m1 :: m2 :: '-' :: d1 :: d2 :: ' ' ::
      h1 :: h2 :: ':' :: n1 :: n2 :: ':' :: s1 :: s2 :: [] =>
    match parseDateSecL [y1, y2, y3, y4, '-', m1, m2, '-', d1, d2] with
    | none => none
    | some dateSec =>
      if h1.isDigit && h2.isDigit && n1.isDigit && n2.isDigit && s1.isDigit &&
          s2.isDigit then
        let h := digitVal h1 * 10 + digitVal h2
        let n := digitVal n1 * 10 + digitVal n2
        let s := digitVal s1 * 10 + digitVal s2
        if h ≤ 23 ∧ n ≤ 59 ∧ s ≤ 59 then
          some (dateSec + h * 3600 + n * 60 + s)
        else none
      else none
  | _ => none

/-- String wrapper for parseDateSecL. -/
def parseDateSec (s : String) : Option Nat := parseDateSecL s.data

/-- String wrapper for parseDateTimeSecL. -/
def parseDateTimeSec (s : String) : Option Nat := parseDateTimeSecL s.data

/-! ## Startup recovery (bot.py, recover_urgent_tasks_on_startup) -/

/-- Accumulated effect of startup recovery: rebuilt registry, catch-up
alerts, scheduled checks as (delay in minutes, task id), and the two
counters the source keeps. -/
structure RecoverState where
  watch : List (String × WatchEntry)
  alerts : List Alert
  scheds : List (Nat × String)
  recovered : Nat
  notifiedImmediately : Nat
  deriving DecidableEq

/-- Per-row step of startup recovery: skip rows that are not Unassigned,
High-priority TASK rows or whose creation timestamp does not parse; emit a
catch-up alert when the elapsed time has passed the initial delay (weekday
only), with the sequence number the uninterrupted cadence would have
reached; then (weekday only) schedule the next check at the correct phase of
the interval cadence and register the watch entry. -/
def recover_step (weekday : Bool) (nowSec : Nat) (st : RecoverState)
    (r : Row) : RecoverState :=
  let status := pyStrip r.status
  let priority := pyStrip r.priority
  let taskId := pyStrip r.id
  if !(status == "Не распределено" && priority == "Высокий" &&
      startsWithS "TASK-" taskId) then st
  else
    match (if pyStrip r.createdTime != "" then
        parseDateTimeSec (pyStrip r.createdDate ++ " " ++ pyStrip r.createdTime)
      else parseDateSec (pyStrip r.createdDate)) with
    | none => st
    | some createdSec =>
      let elapsedMin := (nowSec - createdSec) / 60
      let topic := pyStrip r.topic
      let jobName := "urgent_watch_" ++ taskId
      let st1 :=
        if URGENT_UNASSIGNED_DELAY ≤ elapsedMin ∧ weekday = true then
          { st with
            alerts := st.alerts ++ [⟨taskId, topic, elapsedMin,
              (elapsedMin - URGENT_UNASSIGNED_DELAY) /
                URGENT_UNASSIGNED_INTERVAL + 1⟩],
            notifiedImmediately := st.notifiedImmediately + 1 }
        else st
      if weekday = true then
        let nextIn :=
          if elapsedMin < URGENT_UNASSIGNED_DELAY then
            URGENT_UNASSIGNED_DELAY - elapsedMin
          else
            URGENT_UNASSIGNED_INTERVAL -
              (elapsedMin - URGENT_UNASSIGNED_DELAY) % URGENT_UNASSIGNED_INTERVAL
        { st1 with
          scheds := st1.scheds ++ [(nextIn, taskId)],
          watch := ainsert st1.watch taskId
            ⟨createdSec, jobName, topic, st1.notifiedImmediately⟩,
          recovered := st1.recovered + 1 }
      else st1

/-- Embedding of bot.py recover_urgent_tasks_on_startup: fold the per-row
recovery step over the store snapshot. -/
def recover_urgent_tasks_on_startup (weekday : Bool) (nowSec : Nat)
    (store : List Row) : RecoverState :=
  store.foldl (recover_step weekday nowSec) ⟨[], [], [], 0, 0⟩

/-! ## Theorem for claim C4 -/

/-- Store row for the C4 scenario: an Unassigned High task created at noon of
a workday. -/
def c4_row : Row :=
  ⟨"TASK-0007", "2026-01-05", "12:00:00", "Починить маршрутизатор", "",
   "Автор", "", "Не распределено", "", "", "", "77", "", "Высокий", ""⟩

/-- Startup instant of the C4 scenario: 12 minutes after the creation of
c4_row, on the Moscow wall clock. -/
def c4_now : Nat := daysFromCivil 2026 1 5 * 86400 + 12 * 3600 + 12 * 60

/-- C4: startup recovery over a store holding exactly one Unassigned High
task created 12 minutes earlier (delay 5, interval 5, workday) emits exactly
one catch-up alert numbered 2 — the sequence number the uninterrupted cadence
had reached, since alert 2 fired at minute 10 and alert 3 is due at minute
15 — and schedules the next check 3 minutes later, landing on minute 15 of
the original cadence. -/
theorem c4_startup_recovery :
    (recover_urgent_tasks_on_startup true c4_now [c4_row]).alerts
      = [⟨"TASK-0007", "Починить маршрутизатор", 12, 2⟩] ∧
    (recover_urgent_tasks_on_startup true c4_now [c4_row]).scheds
      = [(3, "TASK-0007")] ∧
    URGENT_UNASSIGNED_DELAY + (2 - 1) * URGENT_UNASSIGNED_INTERVAL ≤ 12 ∧
    12 < URGENT_UNASSIGNED_DELAY + 2 * URGENT_UNASSIGNED_INTERVAL ∧
    12 + 3 = URGENT_UNASSIGNED_DELAY + 2 * URGENT_UNASSIGNED_INTERVAL := by
  decide

/-! ## Theorem for claim C5 -/

/-- C5: at the quiet-hours end, each paused entry with recorded elapsed
minutes e is rescheduled after resume_offset e, and with the default
configuration (delay 5, interval 5) e plus that offset is exactly the next
boundary of the original notification cadence (delay plus successive
multiples of the interval, measured from creation): it lies on the cadence,
the offset is positive, and no cadence boundary after e is earlier. -/
theorem c5_resume_cadence :
    (∀ (watch : List (String × WatchEntry))
        (paused : List (String × PausedEntry)), paused ≠ [] →
      (resume_all_timers watch paused).2.2
        = paused.map (fun kv => (resume_offset kv.2.elapsedMinutes, kv.1))) ∧
    (∀ e : Nat,
      (∃ k, e + resume_offset e
          = URGENT_UNASSIGNED_DELAY + k * URGENT_UNASSIGNED_INTERVAL) ∧
      0 < resume_offset e ∧
      ∀ t k, t = URGENT_UNASSIGNED_DELAY + k * URGENT_UNASSIGNED_INTERVAL →
        e < t → e + resume_offset e ≤ t) := by
  constructor
  · intro watch paused h
    unfold resume_all_timers
    rw [if_neg (fun hc => h (List.isEmpty_iff.mp hc))]
  · intro e
    have hoff : resume_offset e = (e / 5 + 1) * 5 - e := by
      unfold resume_offset URGENT_UNASSIGNED_INTERVAL
      simp only []
      rw [if_neg (by omega)]
    unfold URGENT_UNASSIGNED_DELAY URGENT_UNASSIGNED_INTERVAL
    refine ⟨⟨e / 5, by omega⟩, by omega, ?_⟩
    intro t k ht hlt
    subst ht
    omega

/-- Witness for c5_resume_cadence: a paused entry with elapsed 12 minutes is
rescheduled after resume_offset 12 minutes, and lands no later than minute
15, the cadence boundary after minute 12. -/
theorem c5_resume_cadence_witness :
    (resume_all_timers []
        [("TASK-0001", ⟨0, "urgent_watch_TASK-0001", "Тема", 2, 12⟩)]).2.2
      = [(resume_offset 12, "TASK-0001")] ∧
    12 + resume_offset 12 ≤ 15 :=
  ⟨c5_resume_cadence.1 []
      [("TASK-0001", ⟨0, "urgent_watch_TASK-0001", "Тема", 2, 12⟩)]
      (by decide),
   (c5_resume_cadence.2 12).2.2 15 2 (by decide) (by decide)⟩

/-! ## Association-list lemmas for the registries -/

theorem alookup_aerase_self {α : Type} (w : List (String × α)) (k : String) :
    alookup (aerase w k) k = none := by
  induction w with
  | nil => rfl
  | cons kv rest ih =>
    obtain ⟨k', v⟩ := kv
    by_cases h : (k' == k) = true
    · simp only [aerase, h, if_true]
      exact ih
    · rw [Bool.not_eq_true] at h
      simp [aerase, alookup, h, ih]

theorem alookup_aerase_ne {α : Type} (w : List (String × α)) (k T : String)
    (h : T ≠ k) : alookup (aerase w k) T = alookup w T := by
  induction w with
  | nil => rfl
  | cons kv rest ih =>
    obtain ⟨k', v⟩ := kv
    by_cases hk : (k' == k) = true
    · have hk' : k' = k := beq_iff_eq.mp hk
      have hne : (k' == T) = false := by
        rw [beq_eq_false_iff_ne, hk']
        exact fun he => h he.symm
      simp [aerase, alookup, hk, hne, ih]
    · rw [Bool.not_eq_true] at hk
      by_cases he : (k' == T) = true
      · simp [aerase, alookup, hk, he]
      · rw [Bool.not_eq_true] at he
        simp [aerase, alookup, hk, he, ih]

theorem alookup_aerase_none {α : Type} (w : List (String × α)) (k T : String)
    (h : alookup w T = none) : alookup (aerase w k) T = none := by
  by_cases he : T = k
  · rw [he]
    exact alookup_aerase_self w k
  · rw [alookup_aerase_ne w k T he]
    exact h

theorem alookup_ainsert_ne {α : Type} (w : List (String × α)) (k T : String)
    (v : α) (h : T ≠ k) : alookup (ainsert w k v) T = alookup w T := by
  have hkT : (k == T) = false := beq_eq_false_iff_ne.mpr fun he => h he.symm
  induction w with
  | nil => simp [ainsert, alookup, hkT]
  | cons kv rest ih =>
    obtain ⟨k', w'⟩ := kv
    by_cases hk : (k' == k) = true
    · have hk' : k' = k := beq_iff_eq.mp hk
      have hk'T : (k' == T) = false := by rw [hk']; exact hkT
      simp [ainsert, alookup, hk, hkT, hk'T]
    · rw [Bool.not_eq_true] at hk
      by_cases he : (k' == T) = true
      · simp [ainsert, alookup, hk, he]
      · rw [Bool.not_eq_true] at he
        simp [ainsert, alookup, hk, he, ih]

theorem alookup_keymap_none {α β : Type} (f : String × α → β)
    (w : List (String × α)) (T : String) (h : alookup w T = none) :
    alookup (w.map (fun kv => (kv.1, f kv))) T = none := by
  induction w with
  | nil => rfl
  | cons kv rest ih =>
    obtain ⟨k, v⟩ := kv
    by_cases hk : (k == T) = true
    · simp only [alookup, hk, if_true] at h
      exact absurd h (by simp)
    · rw [Bool.not_eq_true] at hk
      simp only [alookup, hk, Bool.false_eq_true, if_false] at h
      simp only [List.map_cons, alookup, hk, Bool.false_eq_true, if_false]
      exact ih h

theorem mem_key_ne_of_alookup_none {α : Type} (w : List (String × α))
    (T : String) (h : alookup w T = none) : ∀ kv ∈ w, kv.1 ≠ T := by
  induction w with
  | nil => intro kv hkv; simp at hkv
  | cons kv' rest ih =>
    intro kv hkv
    obtain ⟨k, v⟩ := kv'
    by_cases hk : (k == T) = true
    · simp only [alookup, hk, if_true] at h
      exact absurd h (by simp)
    · rw [Bool.not_eq_true] at hk
      simp only [alookup, hk, Bool.false_eq_true, if_false] at h
      rcases List.mem_cons.mp hkv with he | hm
      · rw [he]
        exact beq_eq_false_iff_ne.mp hk
      · exact ih h kv hm

/-- Shape of the registry after one reply: the handler either leaves it
unchanged or erases exactly the resolved task's entry. -/
theorem reply_watch_shape (users : List (String × String)) (nowStr : String)
    (username : Option String) (fullName : String) (store : List Row)
    (watch : List (String × WatchEntry)) (quoted text : String) :
    (handle_task_reply users nowStr username fullName store watch quoted
        text).watch = watch ∨
    ∃ k, (handle_task_reply users nowStr username fullName store watch quoted
        text).watch = aerase watch k := by
  by_cases ht : (pyStrip text == "") = true
  · left; simp [handle_task_reply, ht]
  · rw [Bool.not_eq_true] at ht
    cases hq : findTaskRef quoted with
    | none => left; simp [handle_task_reply, ht, hq]
    | some taskId =>
      cases hi : findRowIdx store taskId with
      | none => left; simp [handle_task_reply, ht, hq, hi]
      | some i =>
        cases hr : store[i]? with
        | none => left; simp [handle_task_reply, ht, hq, hi, hr]
        | some row =>
          by_cases hd : (row.status == "Выполнено") = true
          · left; simp [handle_task_reply, ht, hq, hi, hr, hd]
          · rw [Bool.not_eq_true] at hd
            by_cases hh : hasHandle (pyStrip text) = true
            · right
              refine ⟨taskId, ?_⟩
              simp [handle_task_reply, ht, hq, hi, hr, hd, hh]
            · rw [Bool.not_eq_true] at hh
              by_cases hc : (completion_triggers.any
                  fun tr => containsS tr (pyLower (pyStrip text))) = true
              · right
                refine ⟨taskId, ?_⟩
                simp [handle_task_reply, ht, hq, hi, hr, hd, hh, hc]
              · rw [Bool.not_eq_true] at hc
                by_cases ho : (oper_triggers.any
                    fun tr => containsS tr (pyLower (pyStrip text))) = true
                · left
                  simp [handle_task_reply, ht, hq, hi, hr, hd, hh, hc, ho]
                · rw [Bool.not_eq_true] at ho
                  left
                  simp [handle_task_reply, ht, hq, hi, hr, hd, hh, hc, ho]

/-- Shape of one check firing: the registry is unchanged with no alert, or
exactly the checked task's entry is erased with no alert, or the checked
task's entry (necessarily present) is replaced and exactly one alert naming
that task is emitted. -/
theorem check_cases (quiet weekend : Bool) (nowSec : Nat) (store : List Row)
    (watch : List (String × WatchEntry)) (taskId topic : String)
    (createdAtSec : Nat) :
    ((check_urgent_unassigned quiet weekend nowSec store watch taskId topic
        createdAtSec).watch = watch ∧
     (check_urgent_unassigned quiet weekend nowSec store watch taskId topic
        createdAtSec).alerts = []) ∨
    ((check_urgent_unassigned quiet weekend nowSec store watch taskId topic
        createdAtSec).watch = aerase watch taskId ∧
     (check_urgent_unassigned quiet weekend nowSec store watch taskId topic
        createdAtSec).alerts = []) ∨
    ((∃ e', (check_urgent_unassigned quiet weekend nowSec store watch taskId
        topic createdAtSec).watch = ainsert watch taskId e') ∧
     (∃ a, (check_urgent_unassigned quiet weekend nowSec store watch taskId
        topic createdAtSec).alerts = [a] ∧ a.taskId = taskId) ∧
     (alookup watch taskId).isSome = true) := by
  by_cases hqt : quiet = true
  · left
    constructor <;> simp [check_urgent_unassigned, hqt]
  · by_cases hwk : weekend = true
    · left
      constructor <;> simp [check_urgent_unassigned, hqt, hwk]
    · cases he : alookup watch taskId with
      | none =>
        left
        constructor <;> simp [check_urgent_unassigned, hqt, hwk, he]
      | some entry =>
        cases hi : findRowIdx store taskId with
        | none =>
          right; left
          constructor <;> simp [check_urgent_unassigned, hqt, hwk, he, hi]
        | some i =>
          cases hr : store[i]? with
          | none =>
            right; left
            constructor <;>
              simp [check_urgent_unassigned, hqt, hwk, he, hi, hr]
          | some row =>
            by_cases hb : (pyStrip row.priority != "Высокий"
                || pyStrip row.status != "Не распределено"
                || pyStrip row.executor != "") = true
            · right; left
              constructor <;>
                simp [check_urgent_unassigned, hqt, hwk, he, hi, hr, hb]
            · rw [Bool.not_eq_true] at hb
              right; right
              refine ⟨⟨{ entry with notifiedCount := entry.notifiedCount + 1 },
                  ?_⟩,
                ⟨⟨taskId, topic, (nowSec - createdAtSec) / 60,
                  entry.notifiedCount + 1⟩, ?_, rfl⟩, ?_⟩
              · simp [check_urgent_unassigned, hqt, hwk, he, hi, hr, hb]
              · simp [check_urgent_unassigned, hqt, hwk, he, hi, hr, hb]
              · rfl

/-! ## Theorems for claim C3 -/

/-- Concrete Unassigned High row for the C3 counterexample. -/
def c3_row : Row :=
  ⟨"TASK-0002", "2026-01-05", "12:00:00", "Срочная", "", "Автор", "",
   "Не распределено", "", "", "", "88", "", "Высокий", ""⟩

/-- Escalation entry registered for c3_row. -/
def c3_entry : WatchEntry := ⟨0, "urgent_watch_TASK-0002", "Срочная", 1⟩

/-- Counterexample for C3: an operational-tag reply moves the task out of
Unassigned (its stored status becomes Операционная задача) yet the escalation
registry entry for it is not removed at that step, so removal does not happen
if (whenever) the task leaves Unassigned. -/
theorem c3_escalation_removal_counterexample :
    c3_row.status = "Не распределено" ∧
    ((handle_task_reply [] "2026-01-05 12:30:00" (some "vasya") "Вася"
        [c3_row] [("TASK-0002", c3_entry)] "Задача #TASK-0002"
        "#опер").store[0]?).map Row.status = some "Операционная задача" ∧
    (handle_task_reply [] "2026-01-05 12:30:00" (some "vasya") "Вася"
        [c3_row] [("TASK-0002", c3_entry)] "Задача #TASK-0002"
        "#опер").watch = [("TASK-0002", c3_entry)] := by
  decide

/-- C3 amended: the escalation entry for a task is removed exactly by (i) an
assignment or completion reply resolving to it on a non-Done row, or (ii) a
check firing outside quiet hours and weekends that finds the store row
missing or no longer an executor-free Unassigned High row; an operational-tag
reply moves the task out of Unassigned without removing the entry (the next
check firing removes it, silently); quiet-hours and weekend firings change
nothing; and once a task is in neither the active nor the paused registry,
reply, check, pause and resume steps never re-add it and no further
escalation alerts reference it. -/
theorem c3_escalation_amended :
    (∀ (users : List (String × String)) (nowStr : String)
        (username : Option String) (fullName : String) (store : List Row)
        (watch : List (String × WatchEntry)) (quoted text taskId : String)
        (i : Nat) (row : Row),
      findTaskRef quoted = some taskId →
      findRowIdx store taskId = some i →
      store[i]? = some row →
      row.status ≠ "Выполнено" →
      (hasHandle (pyStrip text) = true ∨
        (hasHandle (pyStrip text) = false ∧
         completion_triggers.any
           (fun tr => containsS tr (pyLower (pyStrip text))) = true)) →
      (handle_task_reply users nowStr username fullName store watch quoted
          text).watch = aerase watch taskId) ∧
    (∀ (users : List (String × String)) (nowStr : String)
        (username : Option String) (fullName : String) (store : List Row)
        (watch : List (String × WatchEntry)) (quoted text taskId : String)
        (i : Nat) (row : Row),
      findTaskRef quoted = some taskId →
      findRowIdx store taskId = some i →
      store[i]? = some row →
      row.status ≠ "Выполнено" →
      hasHandle (pyStrip text) = false →
      completion_triggers.any
        (fun tr => containsS tr (pyLower (pyStrip text))) = false →
      oper_triggers.any
        (fun tr => containsS tr (pyLower (pyStrip text))) = true →
      (handle_task_reply users nowStr username fullName store watch quoted
          text).watch = watch ∧
      ((handle_task_reply users nowStr username fullName store watch quoted
          text).store[i]?).map Row.status = some "Операционная задача") ∧
    (∀ (nowSec : Nat) (store : List Row)
        (watch : List (String × WatchEntry)) (taskId topic : String)
        (createdAtSec : Nat) (entry : WatchEntry),
      alookup watch taskId = some entry →
      (findRowIdx store taskId = none →
        check_urgent_unassigned false false nowSec store watch taskId topic
            createdAtSec
          = ⟨aerase watch taskId, [], []⟩) ∧
      (∀ (i : Nat) (row : Row), findRowIdx store taskId = some i →
        store[i]? = some row →
        ((pyStrip row.priority != "Высокий"
            || pyStrip row.status != "Не распределено"
            || pyStrip row.executor != "") = true →
          check_urgent_unassigned false false nowSec store watch taskId topic
              createdAtSec
            = ⟨aerase watch taskId, [], []⟩) ∧
        ((pyStrip row.priority != "Высокий"
            || pyStrip row.status != "Не распределено"
            || pyStrip row.executor != "") = false →
          check_urgent_unassigned false false nowSec store watch taskId topic
              createdAtSec
            = ⟨ainsert watch taskId
                 { entry with notifiedCount := entry.notifiedCount + 1 },
               [⟨taskId, topic, (nowSec - createdAtSec) / 60,
                 entry.notifiedCount + 1⟩],
               [(URGENT_UNASSIGNED_INTERVAL, taskId)]⟩))) ∧
    (∀ (quiet weekend : Bool) (nowSec : Nat) (store : List Row)
        (watch : List (String × WatchEntry)) (taskId topic : String)
        (createdAtSec : Nat),
      quiet = true ∨ weekend = true →
      check_urgent_unassigned quiet weekend nowSec store watch taskId topic
          createdAtSec
        = ⟨watch, [], []⟩) ∧
    (∀ (quiet weekend : Bool) (nowSec : Nat) (store : List Row)
        (watch : List (String × WatchEntry)) (taskId topic : String)
        (createdAtSec : Nat) (T : String),
      alookup watch T = none →
      alookup (check_urgent_unassigned quiet weekend nowSec store watch taskId
          topic createdAtSec).watch T = none ∧
      ∀ a ∈ (check_urgent_unassigned quiet weekend nowSec store watch taskId
          topic createdAtSec).alerts, a.taskId ≠ T) ∧
    (∀ (users : List (String × String)) (nowStr : String)
        (username : Option String) (fullName : String) (store : List Row)
        (watch : List (String × WatchEntry)) (quoted text T : String),
      alookup watch T = none →
      alookup (handle_task_reply users nowStr username fullName store watch
          quoted text).watch T = none) ∧
    (∀ (nowSec : Nat) (watch : List (String × WatchEntry))
        (paused : List (String × PausedEntry)) (T : String),
      alookup watch T = none → alookup paused T = none →
      alookup (pause_all_timers nowSec watch paused).1 T = none ∧
      alookup (pause_all_timers nowSec watch paused).2 T = none ∧
      alookup (resume_all_timers watch paused).1 T = none ∧
      alookup (resume_all_timers watch paused).2.1 T = none ∧
      ∀ dk ∈ (resume_all_timers watch paused).2.2, dk.2 ≠ T) := by
  refine ⟨?_, ?_, ?_, ?_, ?_, ?_, ?_⟩
  · intro users nowStr username fullName store watch quoted text taskId i row
      hq hi hr hd hbranch
    have hds : (row.status == "Выполнено") = false := beq_eq_false_iff_ne.mpr hd
    rcases hbranch with hh | ⟨hh, hc⟩
    · have hte : (pyStrip text == "") = false := by
        cases he : pyStrip text == ""
        · rfl
        · rw [beq_iff_eq.mp he] at hh
          exact absurd hh (by decide)
      simp [handle_task_reply, hte, hq, hi, hr, hds, hh]
    · have hte : (pyStrip text == "") = false := by
        cases he : pyStrip text == ""
        · rfl
        · rw [beq_iff_eq.mp he] at hc
          exact absurd hc (by decide)
      simp [handle_task_reply, hte, hq, hi, hr, hds, hh, hc]
  · intro users nowStr username fullName store watch quoted text taskId i row
      hq hi hr hd hh hc ho
    have hds : (row.status == "Выполнено") = false := beq_eq_false_iff_ne.mpr hd
    have hte : (pyStrip text == "") = false := by
      cases he : pyStrip text == ""
      · rfl
      · rw [beq_iff_eq.mp he] at ho
        exact absurd ho (by decide)
    constructor
    · simp [handle_task_reply, hte, hq, hi, hr, hds, hh, hc, ho]
    · have h1 := updateRow_get
        (fun r => { r with status := "Операционная задача" }) store i row hr
      by_cases hex : (pyStrip row.executor == "") = true
      · have h2 := updateRow_get
          (fun r => { r with executor := resolveAuto users username fullName })
          _ i _ h1
        by_cases has : (pyStrip row.assignedAt == "") = true
        · have h3 := updateRow_get
            (fun r => { r with assignedAt := nowStr }) _ i _ h2
          simp [handle_task_reply, hte, hq, hi, hr, hds, hh, hc, ho, hex, has,
            h3]
        · rw [Bool.not_eq_true] at has
          simp [handle_task_reply, hte, hq, hi, hr, hds, hh, hc, ho, hex, has,
            h2]
      · rw [Bool.not_eq_true] at hex
        by_cases has : (pyStrip row.assignedAt == "") = true
        · have h3 := updateRow_get
            (fun r => { r with assignedAt := nowStr }) _ i _ h1
          simp [handle_task_reply, hte, hq, hi, hr, hds, hh, hc, ho, hex, has,
            h3]
        · rw [Bool.not_eq_true] at has
          simp [handle_task_reply, hte, hq, hi, hr, hds, hh, hc, ho, hex, has,
            h1]
  · intro nowSec store watch taskId topic createdAtSec entry he
    refine ⟨?_, ?_⟩
    · intro hnone
      simp [check_urgent_unassigned, he, hnone]
    · intro i row hi hr
      constructor
      · intro hbad
        simp [check_urgent_unassigned, he, hi, hr, hbad]
      · intro hok
        simp [check_urgent_unassigned, he, hi, hr, hok]
  · intro quiet weekend nowSec store watch taskId topic createdAtSec h
    rcases h with h | h
    · simp [check_urgent_unassigned, h]
    · cases hq : quiet
      · simp [check_urgent_unassigned, hq, h]
      · simp [check_urgent_unassigned, hq]
  · intro quiet weekend nowSec store watch taskId topic createdAtSec T h
    rcases check_cases quiet weekend nowSec store watch taskId topic
        createdAtSec with
      ⟨hw, ha⟩ | ⟨hw, ha⟩ | ⟨⟨e', hw⟩, ⟨a, ha, hat⟩, hsome⟩
    · rw [hw, ha]
      exact ⟨h, by simp⟩
    · rw [hw, ha]
      exact ⟨alookup_aerase_none _ _ _ h, by simp⟩
    · have hne : T ≠ taskId := by
        intro heq
        rw [← heq, h] at hsome
        simp at hsome
      rw [hw, ha]
      refine ⟨?_, ?_⟩
      · rw [alookup_ainsert_ne _ _ _ _ hne]
        exact h
      · intro a' ha'
        rw [List.mem_singleton.mp ha', hat]
        exact hne.symm
  · intro users nowStr username fullName store watch quoted text T h
    rcases reply_watch_shape users nowStr username fullName store watch quoted
        text with hw | ⟨k, hw⟩
    · rw [hw]
      exact h
    · rw [hw]
      exact alookup_aerase_none _ _ _ h
  · intro nowSec watch paused T hw hp
    refine ⟨?_, ?_, ?_, ?_, ?_⟩
    · unfold pause_all_timers
      by_cases hwe : watch.isEmpty = true
      · rw [if_pos hwe]
        exact hw
      · rw [if_neg hwe]
        exact rfl
    · unfold pause_all_timers
      by_cases hwe : watch.isEmpty = true
      · rw [if_pos hwe]
        exact hp
      · rw [if_neg hwe]
        exact alookup_keymap_none _ watch T hw
    · unfold resume_all_timers
      by_cases hpe : paused.isEmpty = true
      · rw [if_pos hpe]
        exact hw
      · rw [if_neg hpe]
        exact alookup_keymap_none _ paused T hp
    · unfold resume_all_timers
      by_cases hpe : paused.isEmpty = true
      · rw [if_pos hpe]
        exact hp
      · rw [if_neg hpe]
        exact rfl
    · unfold resume_all_timers
      by_cases hpe : paused.isEmpty = true
      · rw [if_pos hpe]
        intro dk hdk
        simp at hdk
      · rw [if_neg hpe]
        intro dk hdk
        obtain ⟨kv, hkv, rfl⟩ := List.mem_map.mp hdk
        exact mem_key_ne_of_alookup_none paused T hp kv hkv

/-- Witness for c3_escalation_amended: a concrete assignment reply erases the
task's entry, and once the registry holds no entry for the task a check
firing leaves it absent. -/
theorem c3_escalation_amended_witness :
    (handle_task_reply [] "2026-01-05 12:30:00" none "Пётр" [c3_row]
        [("TASK-0002", c3_entry)] "Задача #TASK-0002" "@ivanov").watch
      = aerase [("TASK-0002", c3_entry)] "TASK-0002" ∧
    alookup (check_urgent_unassigned false false 720 [c3_row] [] "TASK-0002"
        "Срочная" 0).watch "TASK-0002" = none :=
  ⟨c3_escalation_amended.1 [] "2026-01-05 12:30:00" none "Пётр" [c3_row]
      [("TASK-0002", c3_entry)] "Задача #TASK-0002" "@ivanov" "TASK-0002" 0
      c3_row (by decide) (by decide) (by decide) (by decide)
      (Or.inl (by decide)),
   (c3_escalation_amended.2.2.2.2.1 false false 720 [c3_row] [] "TASK-0002"
      "Срочная" 0 "TASK-0002" (by decide)).1⟩

/-! ## Finalization (bot.py, finalize_task_job) and claim C8 -/

/-- Zero-padded sequential task id, mirroring the format string of
generate_task_id. -/
def taskIdString (n : Nat) : String :=
  let s := toString n
  "TASK-" ++ (if s.length < 4 then
    String.mk (List.replicate (4 - s.length) '0') ++ s else s)

/-- Outcome of one finalize job: the (consumed) pending entry, the id
counter, whether the announcement reached the channel, the rows appended to
the store, the escalation registrations, and the scheduled first checks as
(delay in minutes, task id). -/
structure FinalizeOut where
  pending : Option PendingEntry
  counter : Nat
  published : Bool
  appended : List Row
  watchAdds : List (String × WatchEntry)
  scheds : List (Nat × String)
  deriving DecidableEq

/-- Embedding of bot.py finalize_task_job for one aggregation key.  A missing
entry makes the job a no-op (duplicate finalize); otherwise the entry is
popped, the id counter advances, and the announcement publish and the store
append may each fail — publishOk and appendOk mirror those try/except blocks,
whose except branches log and return instead of propagating, so a failure
never escapes the job.  Publish failure happens before the append, so the
row is never written; append success for a High-priority task registers an
escalation entry and schedules its first check after the initial delay. -/
def finalize_task_job (publishOk appendOk : Bool)
    (users : List (String × String)) (sorokinId nowSec : Nat)
    (nowDate nowTime : String) (channelMsgId counter : Nat)
    (pend : Option PendingEntry) : FinalizeOut :=
  match pend with
  | none => ⟨none, counter, false, [], [], []⟩
  | some e =>
    let description := pyStrip (joinNL e.desc_parts)
    let taskId := taskIdString (counter + 1)
    let author := resolveName users e.username e.fullName
    let tags := if e.userId = sorokinId then "#От Сорокина" else ""
    let priority := extract_priority (e.topic ++ "\n" ++ description)
    if publishOk = false then ⟨none, counter + 1, false, [], [], []⟩
    else
      let row : Row := ⟨taskId, nowDate, nowTime, e.topic, description,
        author, "", "Не распределено", "", "", tags, toString channelMsgId,
        "", priority, ""⟩
      if appendOk = false then ⟨none, counter + 1, true, [], [], []⟩
      else if priority == "Высокий" then
        ⟨none, counter + 1, true, [row],
         [(taskId, ⟨nowSec, "urgent_watch_" ++ taskId, e.topic, 0⟩)],
         [(URGENT_UNASSIGNED_DELAY, taskId)]⟩
      else ⟨none, counter + 1, true, [row], [], []⟩

/-- C8: when publishing the announcement fails, finalize_task_job returns
normally (the except branch logs and returns, the process is not terminated)
with no row appended to the store, the pending entry consumed — so the task
is lost rather than duplicated — and no escalation registered or
scheduled. -/
theorem c8_publish_failure_aborts_append (appendOk : Bool)
    (users : List (String × String)) (sorokinId nowSec : Nat)
    (nowDate nowTime : String) (channelMsgId counter : Nat)
    (e : PendingEntry) :
    finalize_task_job false appendOk users sorokinId nowSec nowDate nowTime
        channelMsgId counter (some e)
      = ⟨none, counter + 1, false, [], [], []⟩ := by
  simp [finalize_task_job]
